import Mathlib

/-!
Shallow embedding of the EchoVerse repository.

The repository holds two small Python front-ends:
  * `main.py`  — a Streamlit audiobook tool: rewrite text with an LLM, then
    synthesize speech through the ElevenLabs REST API, keeping an in-memory
    history of successful generations;
  * `title.py` — a Gradio story generator calling the same LLM provider.

The two remote services are modelled as oracles passed in as functions:
  * `llm  : String → Except String String` — the generative-model call on a
    prompt; `Except.error e` models a raised exception with message `e`;
  * `http : HttpRequest → Except String HttpResponse` — one HTTP round trip;
    `Except.error e` models a transport-level exception.

Absent environment variables are modelled as the empty string, matching the
Python falsiness tests (`if not key`) applied to both `None` and `""`.
Every function also returns the UI messages it emits (`st.error`,
`st.warning`, `st.success`), the prompts it sent to the LLM and the HTTP
requests it performed, so that "no call is made" and "a diagnostic is shown"
are statable properties.
-/

namespace EchoVerse

/-- A JSON value, as needed for the request body assembled in
`convert_text_to_speech` (string fields, fractional numeric fields,
objects). -/
inductive Json where
  | str : String → Json
  | num : Rat → Json
  | obj : List (String × Json) → Json

/-- An outbound HTTP request exactly as the code assembles it: method, URL,
header list and JSON body. -/
structure HttpRequest where
  method : String
  url : String
  headers : List (String × String)
  body : Json

/-- An HTTP response as the `requests` library presents it to the code:
`status_code`, `content` (raw bytes, modelled as a list of byte values) and
`text` (the body decoded as text). -/
structure HttpResponse where
  status_code : Nat
  content : List Nat
  text : String
deriving DecidableEq

/-- A message surfaced in the UI: `st.error` / `st.warning` / `st.success`
in `main.py`. -/
inductive UIMsg where
  | error : String → UIMsg
  | warning : String → UIMsg
  | success : String → UIMsg
deriving DecidableEq

namespace Main

/-- Result of `configure_apis` (`main.py`): either startup halts with a
visible diagnostic (`st.error` followed by `st.stop`), or configuration
succeeds and the ElevenLabs API key is returned to the module. -/
inductive ConfigResult where
  | halted : String → ConfigResult
  | ok : String → ConfigResult
deriving DecidableEq

/-- `main.py` `configure_apis`: load both keys from the environment; a
missing (falsy) key halts startup with an error; then `genai.configure` is
attempted and a raised exception also halts startup. `genai_configure`
models `genai.configure`, which may raise. -/
def configure_apis (google_api_key elevenlabs_api_key : String)
    (genai_configure : String → Except String Unit) : ConfigResult :=
  if google_api_key = "" then
    ConfigResult.halted "Google AI API Key is missing. Please check your .env file."
  else if elevenlabs_api_key = "" then
    ConfigResult.halted "ElevenLabs API Key is missing. Please check your .env file."
  else
    match genai_configure google_api_key with
    | Except.ok _ => ConfigResult.ok elevenlabs_api_key
    | Except.error e => ConfigResult.halted ("Failed to configure Google Gemini API: " ++ e)

/-- What one call of `rewrite_text_with_llm` produces: the Python return
value (`none` models Python `None`; `some ""` models the returned empty
string), the UI messages it emitted, and the prompts it sent to the model. -/
structure RewriteResult where
  text : Option String
  msgs : List UIMsg
  prompts : List String
deriving DecidableEq

/-- `main.py` `rewrite_text_with_llm`: empty input short-circuits to `""`
with no model call; otherwise the fixed prompt template is instantiated with
the tone and the text, the model is called, and on success the response text
is returned stripped of surrounding whitespace; a raised exception is
reported with `st.error` and `None` is returned. -/
def rewrite_text_with_llm (llm : String → Except String String)
    (text_to_rewrite tone : String) : RewriteResult :=
  if text_to_rewrite = "" then ⟨some "", [], []⟩
  else
    let prompt := "You are a master storyteller. Rewrite the following text in a '" ++ tone
      ++ "' tone, preserving the original meaning but enhancing the style. Return only the rewritten text.\n    ORIGINAL TEXT: \"" ++ text_to_rewrite
      ++ "\"\n    REWRITTEN TEXT:"
    match llm prompt with
    | Except.ok response_text => ⟨some response_text.trim, [], [prompt]⟩
    | Except.error e => ⟨none, [UIMsg.error ("Error rewriting text with Gemini: " ++ e)], [prompt]⟩

/-- What one call of `convert_text_to_speech` produces: the Python return
value (`none` models `None`; `some bytes` the audio), the UI messages it
emitted, and the HTTP requests it performed. -/
structure TTSResult where
  audio : Option (List Nat)
  msgs : List UIMsg
  requests : List HttpRequest

/-- `main.py` `convert_text_to_speech`: a falsy text or voice id returns
`None` with no call; otherwise a POST to the ElevenLabs text-to-speech
endpoint with the documented headers and JSON payload; status 200 returns
the raw response bytes, any other status reports the status code and body
text via `st.error` and returns `None`; a raised transport exception is
caught, reported via `st.error` and `None` is returned. -/
def convert_text_to_speech (http : HttpRequest → Except String HttpResponse)
    (api_key text_to_speak voice_id : String) : TTSResult :=
  if text_to_speak = "" ∨ voice_id = "" then ⟨none, [], []⟩
  else
    let tts_url := "https://api.elevenlabs.io/v1/text-to-speech/" ++ voice_id
    let headers := [("Accept", "audio/mpeg"), ("Content-Type", "application/json"),
      ("xi-api-key", api_key)]
    let data := Json.obj [("text", Json.str text_to_speak),
      ("model_id", Json.str "eleven_multilingual_v2"),
      ("voice_settings", Json.obj [("stability", Json.num (0.5 : Rat)),
        ("similarity_boost", Json.num (0.75 : Rat))])]
    let req : HttpRequest := ⟨"POST", tts_url, headers, data⟩
    match http req with
    | Except.ok response =>
        if response.status_code = 200 then ⟨some response.content, [], [req]⟩
        else
          ⟨none,
           [UIMsg.error ("ElevenLabs API Error: " ++ toString response.status_code ++ " - "
             ++ response.text)],
           [req]⟩
    | Except.error e =>
        ⟨none, [UIMsg.error ("An error occurred while calling the ElevenLabs API: " ++ e)], [req]⟩

/-- One record of `st.session_state.history`: the dict inserted at position
0 on a successful generation. -/
structure Entry where
  original_text : String
  rewritten_text : String
  tone : String
  voice_name : String
  audio_data : List Nat
deriving DecidableEq

/-- The UI selections feeding one press of the "Generate Audiobook"
button. -/
structure GenInput where
  original_text : String
  selected_tone : String
  selected_voice_name : String
  selected_voice_id : String
deriving DecidableEq

/-- What one press of the "Generate Audiobook" button produces: the updated
history list, the UI messages emitted, the prompts sent to the LLM and the
HTTP requests performed during that press. -/
structure GenResult where
  history : List Entry
  msgs : List UIMsg
  prompts : List String
  requests : List HttpRequest

/-- `main.py` "Generate Audiobook" button handler: with truthy text and
voice id, rewrite; if the rewritten text is truthy, synthesize; if audio
bytes are truthy, show success and insert one record at position 0 of the
history; otherwise the history is untouched. With falsy text or voice id a
warning is shown and no call is made. -/
def generate_audiobook (llm : String → Except String String)
    (http : HttpRequest → Except String HttpResponse)
    (api_key : String) (i : GenInput) (history : List Entry) : GenResult :=
  if i.original_text ≠ "" ∧ i.selected_voice_id ≠ "" then
    let rw := rewrite_text_with_llm llm i.original_text i.selected_tone
    match rw.text with
    | some rewritten_text =>
        if rewritten_text ≠ "" then
          let tts := convert_text_to_speech http api_key rewritten_text i.selected_voice_id
          match tts.audio with
          | some audio_data =>
              if audio_data ≠ [] then
                let entry : Entry := ⟨i.original_text, rewritten_text, i.selected_tone,
                  i.selected_voice_name, audio_data⟩
                ⟨entry :: history,
                 rw.msgs ++ tts.msgs ++ [UIMsg.success "✅ Audiobook generated successfully!"],
                 rw.prompts, tts.requests⟩
              else ⟨history, rw.msgs ++ tts.msgs, rw.prompts, tts.requests⟩
          | none => ⟨history, rw.msgs ++ tts.msgs, rw.prompts, tts.requests⟩
        else ⟨history, rw.msgs, rw.prompts, []⟩
    | none => ⟨history, rw.msgs, rw.prompts, []⟩
  else
    ⟨history, [UIMsg.warning "Please provide text to continue."], [], []⟩

/-- A session: the history list threaded through a sequence of presses of
the generate button (each press with its own UI selections). -/
def run_generations (llm : String → Except String String)
    (http : HttpRequest → Except String HttpResponse)
    (api_key : String) (inputs : List GenInput) (history : List Entry) : List Entry :=
  inputs.foldl (fun h i => (generate_audiobook llm http api_key i h).history) history

end Main

namespace Title

/-- `title.py` module constant: the key pasted into the source. In the
committed source it is the empty string. -/
def GOOGLE_API_KEY : String := ""

/-- The message `generate_fictional_story` returns when the module API key
is falsy. -/
def missingKeyMessage : String :=
  "--- \n**Error: Google AI API key is missing!**\n\n1. Get a free API key from https://aistudio.google.com/app/apikey\n2. Paste it into the `GOOGLE_API_KEY` variable in the code.\n3. Restart the application.\n---"

/-- `title.py` `generate_fictional_story`. The model oracle returns
`Except.error e` for a raised exception, `Except.ok none` for a response
that is falsy or lacks a `text` attribute, and `Except.ok (some t)` for a
response carrying text `t`. Every outcome, including every failure, is
returned as the function's single string output. -/
def generate_fictional_story (google_api_key : String)
    (llm : String → Except String (Option String)) (prompt_text : String) : String :=
  if google_api_key = "" then missingKeyMessage
  else
    let full_prompt := "You are a master storyteller. Your task is to write a short, compelling, and creative fictional story based on the user's idea. The story should have a clear beginning, middle, and end.\n\n**User's Idea:** \"" ++ prompt_text
      ++ "\"\n\n**Your Story:**\n"
    match llm full_prompt with
    | Except.ok (some t) => t.trim
    | Except.ok none =>
        "Error: The model did not return a valid story. This might be due to the safety filter or an internal issue. Please try a different prompt."
    | Except.error e => "An unexpected error occurred with the Google AI API: " ++ e

/-- What `title.py` module-level startup does: messages printed to the
console, and whether the app proceeds to launch. -/
structure StartupResult where
  printed : List String
  launched : Bool
deriving DecidableEq

/-- `title.py` module-level startup: `genai.configure` is attempted inside
`try`/`except`; an exception only prints a console message, and in every
case execution continues to `app.launch()`. -/
def title_startup (google_api_key : String)
    (genai_configure : String → Except String Unit) : StartupResult :=
  match genai_configure google_api_key with
  | Except.ok _ => ⟨[], true⟩
  | Except.error e => ⟨["Error configuring Google AI: " ++ e], true⟩

end Title

namespace Spec

/-- Modelled from the spec: the single fixed rewrite prompt template of
§4.1/§8, with the tone and the exact source text substituted in. Written
from the spec's description to be compared with the prompt
`Main.rewrite_text_with_llm` actually sends. -/
def spec_rewrite_prompt (text_to_rewrite tone : String) : String :=
  "You are a master storyteller. Rewrite the following text in a '" ++ tone
    ++ "' tone, preserving the original meaning but enhancing the style. Return only the rewritten text.\n    ORIGINAL TEXT: \"" ++ text_to_rewrite
    ++ "\"\n    REWRITTEN TEXT:"

/-- Modelled from the spec: the synthesis request of §6 — POST to
`https://api.elevenlabs.io/v1/text-to-speech/` followed by the voice id,
headers Accept `audio/mpeg`, Content-Type `application/json`, `xi-api-key`
set to the credential, and a JSON body holding exactly the text, the model
id `eleven_multilingual_v2` and voice settings stability 0.5 /
similarity_boost 0.75. To be compared with the request
`Main.convert_text_to_speech` actually performs. -/
def spec_tts_request (api_key text voice_id : String) : HttpRequest :=
  ⟨"POST",
   "https://api.elevenlabs.io/v1/text-to-speech/" ++ voice_id,
   [("Accept", "audio/mpeg"), ("Content-Type", "application/json"), ("xi-api-key", api_key)],
   Json.obj [("text", Json.str text),
     ("model_id", Json.str "eleven_multilingual_v2"),
     ("voice_settings", Json.obj [("stability", Json.num (0.5 : Rat)),
       ("similarity_boost", Json.num (0.75 : Rat))])]⟩

end Spec

namespace Fixtures

/-- A concrete LLM oracle that always succeeds, returning text with
surrounding whitespace. -/
def llmOk : String → Except String String := fun _ => Except.ok "  Rewritten story.  "

/-- A concrete LLM oracle that always raises. -/
def llmBoom : String → Except String String := fun _ => Except.error "boom"

/-- A concrete HTTP oracle answering every request with status 200 and a
one-byte body. -/
def httpOk200 : HttpRequest → Except String HttpResponse :=
  fun _ => Except.ok ⟨200, [7], "ok"⟩

/-- A concrete HTTP oracle answering every request with status 404. -/
def http404 : HttpRequest → Except String HttpResponse :=
  fun _ => Except.ok ⟨404, [], "voice not found"⟩

/-- A concrete HTTP oracle raising a transport exception on every
request. -/
def httpDown : HttpRequest → Except String HttpResponse :=
  fun _ => Except.error "timeout"

/-- A concrete `genai.configure` oracle that succeeds. -/
def cfgOk : String → Except String Unit := fun _ => Except.ok ()

/-- A concrete story-model oracle that returns a response carrying text. -/
def storyOk : String → Except String (Option String) := fun _ => Except.ok (some "story")

/-- A concrete story-model oracle that raises. -/
def storyBoom : String → Except String (Option String) := fun _ => Except.error "boom"

end Fixtures

end EchoVerse

open EchoVerse

/-- Case analysis of `convert_text_to_speech`: either it returns no audio,
or the HTTP oracle answered the documented synthesis request with status
200 and the audio is exactly that response's bytes. Shared helper. -/
theorem tts_audio_cases (http : HttpRequest → Except String HttpResponse)
    (api_key text voice : String) :
    (Main.convert_text_to_speech http api_key text voice).audio = none ∨
    ∃ resp, http (Spec.spec_tts_request api_key text voice) = Except.ok resp ∧
      resp.status_code = 200 ∧
      (Main.convert_text_to_speech http api_key text voice).audio = some resp.content := by
  unfold Main.convert_text_to_speech Spec.spec_tts_request
  by_cases h : text = "" ∨ voice = ""
  · rw [if_pos h]
    exact Or.inl rfl
  · rw [if_neg h]
    dsimp only
    split
    next resp heq =>
      by_cases h200 : resp.status_code = 200
      · rw [if_pos h200]
        exact Or.inr ⟨resp, heq, h200, rfl⟩
      · rw [if_neg h200]
        exact Or.inl rfl
    next e heq => exact Or.inl rfl

/-- Claim C4: calling the speech-synthesis function with an empty text
argument or an empty voice identifier returns `None`, emits no message and
performs no HTTP call. -/
theorem claim_C4 (http : HttpRequest → Except String HttpResponse)
    (api_key text_to_speak voice_id : String)
    (h : text_to_speak = "" ∨ voice_id = "") :
    Main.convert_text_to_speech http api_key text_to_speak voice_id = ⟨none, [], []⟩ := by
  unfold Main.convert_text_to_speech
  rw [if_pos h]

/-- Witness for Claim C4 at a concrete input: empty text, live HTTP
oracle. -/
theorem claim_C4_witness :
    ("" = "" ∨ "v" = "") ∧
    Main.convert_text_to_speech Fixtures.httpOk200 "k" "" "v" = ⟨none, [], []⟩ :=
  ⟨Or.inl rfl, claim_C4 Fixtures.httpOk200 "k" "" "v" (Or.inl rfl)⟩

/-- Claim C7: with truthy text and voice id, the synthesis function
performs exactly one HTTP request, equal to the request the spec describes
(POST to the ElevenLabs endpoint for that voice, the three documented
headers, and a JSON body holding exactly the text, the fixed model id and
the fixed voice settings); and on a status-200 answer it returns exactly
the raw response bytes. -/
theorem claim_C7 (http : HttpRequest → Except String HttpResponse)
    (api_key text voice : String) (h1 : text ≠ "") (h2 : voice ≠ "") :
    (Main.convert_text_to_speech http api_key text voice).requests
      = [Spec.spec_tts_request api_key text voice] ∧
    ∀ resp, http (Spec.spec_tts_request api_key text voice) = Except.ok resp →
      resp.status_code = 200 →
      (Main.convert_text_to_speech http api_key text voice).audio = some resp.content := by
  constructor
  · unfold Main.convert_text_to_speech Spec.spec_tts_request
    rw [if_neg (by simp [h1, h2])]
    dsimp only
    split
    · split <;> rfl
    · rfl
  · intro resp hh h200
    unfold Main.convert_text_to_speech
    rw [if_neg (by simp [h1, h2])]
    unfold Spec.spec_tts_request at hh
    dsimp only
    rw [hh]
    dsimp only
    rw [if_pos h200]

/-- Witness for Claim C7 at a concrete input: an oracle answering 200 with
body bytes `[7]`. -/
theorem claim_C7_witness :
    (Main.convert_text_to_speech Fixtures.httpOk200 "k" "hi" "v").requests
      = [Spec.spec_tts_request "k" "hi" "v"] ∧
    (Main.convert_text_to_speech Fixtures.httpOk200 "k" "hi" "v").audio = some [7] :=
  ⟨(claim_C7 Fixtures.httpOk200 "k" "hi" "v" (by decide) (by decide)).1,
   (claim_C7 Fixtures.httpOk200 "k" "hi" "v" (by decide) (by decide)).2 ⟨200, [7], "ok"⟩ rfl rfl⟩

/-- Claim C8: for non-empty input text and any tone, the rewrite component
sends exactly one prompt to the model — the fixed template with that exact
text and tone substituted in — and on success returns the model's text
trimmed of surrounding whitespace. -/
theorem claim_C8 (llm : String → Except String String) (text tone : String)
    (h : text ≠ "") :
    (Main.rewrite_text_with_llm llm text tone).prompts
      = [Spec.spec_rewrite_prompt text tone] ∧
    ∀ r, llm (Spec.spec_rewrite_prompt text tone) = Except.ok r →
      (Main.rewrite_text_with_llm llm text tone).text = some r.trim := by
  constructor
  · unfold Main.rewrite_text_with_llm Spec.spec_rewrite_prompt
    rw [if_neg h]
    dsimp only
    split <;> rfl
  · intro r hr
    unfold Main.rewrite_text_with_llm
    rw [if_neg h]
    unfold Spec.spec_rewrite_prompt at hr
    dsimp only
    rw [hr]

/-- Witness for Claim C8 at a concrete input: model answers with padded
text, result is the trimmed text. -/
theorem claim_C8_witness :
    (Main.rewrite_text_with_llm Fixtures.llmOk "hello" "Neutral").prompts
      = [Spec.spec_rewrite_prompt "hello" "Neutral"] ∧
    (Main.rewrite_text_with_llm Fixtures.llmOk "hello" "Neutral").text
      = some "  Rewritten story.  ".trim :=
  ⟨(claim_C8 Fixtures.llmOk "hello" "Neutral" (by decide)).1,
   (claim_C8 Fixtures.llmOk "hello" "Neutral" (by decide)).2 "  Rewritten story.  " rfl⟩

/-- Claim C1: if the rewrite call fails (produces no text, Python `None`),
then that press of the generate button performs no speech-synthesis HTTP
request and leaves the history list unchanged. -/
theorem claim_C1 (llm : String → Except String String)
    (http : HttpRequest → Except String HttpResponse)
    (api_key : String) (i : Main.GenInput) (hist : List Main.Entry)
    (h : (Main.rewrite_text_with_llm llm i.original_text i.selected_tone).text = none) :
    (Main.generate_audiobook llm http api_key i hist).requests = [] ∧
    (Main.generate_audiobook llm http api_key i hist).history = hist := by
  unfold Main.generate_audiobook
  by_cases hc : i.original_text ≠ "" ∧ i.selected_voice_id ≠ ""
  · rw [if_pos hc]
    dsimp only
    rw [h]
    exact ⟨rfl, rfl⟩
  · rw [if_neg hc]
    exact ⟨rfl, rfl⟩

/-- Witness for Claim C1 at a concrete input: a model that raises, so the
rewrite produces no text. -/
theorem claim_C1_witness :
    (Main.rewrite_text_with_llm Fixtures.llmBoom "hello" "Neutral").text = none ∧
    (Main.generate_audiobook Fixtures.llmBoom Fixtures.httpOk200 "k"
      ⟨"hello", "Neutral", "Rachel", "v"⟩ []).requests = [] ∧
    (Main.generate_audiobook Fixtures.llmBoom Fixtures.httpOk200 "k"
      ⟨"hello", "Neutral", "Rachel", "v"⟩ []).history = [] :=
  ⟨rfl,
   (claim_C1 Fixtures.llmBoom Fixtures.httpOk200 "k" ⟨"hello", "Neutral", "Rachel", "v"⟩ [] rfl).1,
   (claim_C1 Fixtures.llmBoom Fixtures.httpOk200 "k" ⟨"hello", "Neutral", "Rachel", "v"⟩ [] rfl).2⟩

/-- Claim C9: with empty input text the generate button sends no prompt to
the model, performs no HTTP request, shows exactly the warning, and leaves
the history unchanged; and the rewrite function itself short-circuits empty
input to the empty string with no model call and no message. -/
theorem claim_C9 (llm llm2 : String → Except String String)
    (http : HttpRequest → Except String HttpResponse)
    (api_key tone : String) (i : Main.GenInput) (hist : List Main.Entry)
    (h : i.original_text = "") :
    (Main.generate_audiobook llm http api_key i hist).prompts = [] ∧
    (Main.generate_audiobook llm http api_key i hist).requests = [] ∧
    (Main.generate_audiobook llm http api_key i hist).msgs
      = [UIMsg.warning "Please provide text to continue."] ∧
    (Main.generate_audiobook llm http api_key i hist).history = hist ∧
    Main.rewrite_text_with_llm llm2 "" tone = ⟨some "", [], []⟩ := by
  have hc : ¬ (i.original_text ≠ "" ∧ i.selected_voice_id ≠ "") := fun hcon => hcon.1 h
  unfold Main.generate_audiobook
  rw [if_neg hc]
  refine ⟨rfl, rfl, rfl, rfl, ?_⟩
  unfold Main.rewrite_text_with_llm
  rw [if_pos rfl]

/-- Witness for Claim C9 at a concrete input: empty pasted text. -/
theorem claim_C9_witness :
    (Main.generate_audiobook Fixtures.llmOk Fixtures.httpOk200 "k"
      ⟨"", "Neutral", "Rachel", "v"⟩ []).prompts = [] ∧
    (Main.generate_audiobook Fixtures.llmOk Fixtures.httpOk200 "k"
      ⟨"", "Neutral", "Rachel", "v"⟩ []).requests = [] ∧
    (Main.generate_audiobook Fixtures.llmOk Fixtures.httpOk200 "k"
      ⟨"", "Neutral", "Rachel", "v"⟩ []).msgs
      = [UIMsg.warning "Please provide text to continue."] ∧
    (Main.generate_audiobook Fixtures.llmOk Fixtures.httpOk200 "k"
      ⟨"", "Neutral", "Rachel", "v"⟩ []).history = [] ∧
    Main.rewrite_text_with_llm Fixtures.llmOk "" "Neutral" = ⟨some "", [], []⟩ :=
  claim_C9 Fixtures.llmOk Fixtures.llmOk Fixtures.httpOk200 "k" "Neutral"
    ⟨"", "Neutral", "Rachel", "v"⟩ [] rfl

/-- Claim C10: the speech-synthesis function is total at its interface:
its audio result is either `None`, or exactly the bytes of a response the
HTTP oracle answered with status exactly 200; and a transport exception is
caught inside the function — the audio result is `None` and the exception
is surfaced as a single diagnostic message (in this embedding the function
is a total function, so it never raises to its caller). -/
theorem claim_C10 (http : HttpRequest → Except String HttpResponse)
    (api_key text voice : String) :
    ((Main.convert_text_to_speech http api_key text voice).audio = none ∨
      ∃ resp, http (Spec.spec_tts_request api_key text voice) = Except.ok resp ∧
        resp.status_code = 200 ∧
        (Main.convert_text_to_speech http api_key text voice).audio = some resp.content) ∧
    (∀ e, http (Spec.spec_tts_request api_key text voice) = Except.error e →
      text ≠ "" → voice ≠ "" →
      (Main.convert_text_to_speech http api_key text voice).audio = none ∧
      (Main.convert_text_to_speech http api_key text voice).msgs
        = [UIMsg.error ("An error occurred while calling the ElevenLabs API: " ++ e)]) := by
  constructor
  · exact tts_audio_cases http api_key text voice
  · intro e he h1 h2
    unfold Main.convert_text_to_speech
    rw [if_neg (by simp [h1, h2])]
    unfold Spec.spec_tts_request at he
    dsimp only
    rw [he]
    exact ⟨rfl, rfl⟩

/-- Witness for Claim C10 at a concrete input: an HTTP oracle that raises a
transport exception. -/
theorem claim_C10_witness :
    (Main.convert_text_to_speech Fixtures.httpDown "k" "hi" "v").audio = none ∧
    (Main.convert_text_to_speech Fixtures.httpDown "k" "hi" "v").msgs
      = [UIMsg.error ("An error occurred while calling the ElevenLabs API: " ++ "timeout")] :=
  (claim_C10 Fixtures.httpDown "k" "hi" "v").2 "timeout" rfl (by decide) (by decide)

/-- Claim C5: on a non-200 answer to the synthesis request, the synthesis
function returns `None` and reports exactly the status code and the
response body text; and when every answer the HTTP oracle gives is non-200,
a press of the generate button leaves the history unchanged — no record is
created. -/
theorem claim_C5 (http : HttpRequest → Except String HttpResponse)
    (api_key text voice : String) (resp : HttpResponse)
    (h1 : text ≠ "") (h2 : voice ≠ "")
    (hh : http (Spec.spec_tts_request api_key text voice) = Except.ok resp)
    (hs : resp.status_code ≠ 200) :
    (Main.convert_text_to_speech http api_key text voice).audio = none ∧
    (Main.convert_text_to_speech http api_key text voice).msgs
      = [UIMsg.error ("ElevenLabs API Error: " ++ toString resp.status_code ++ " - "
          ++ resp.text)] ∧
    ∀ (llm : String → Except String String) (i : Main.GenInput) (hist : List Main.Entry),
      (∀ req r2, http req = Except.ok r2 → r2.status_code ≠ 200) →
      (Main.generate_audiobook llm http api_key i hist).history = hist := by
  refine ⟨?_, ?_, ?_⟩
  · unfold Main.convert_text_to_speech
    rw [if_neg (by simp [h1, h2])]
    unfold Spec.spec_tts_request at hh
    dsimp only
    rw [hh]
    dsimp only
    rw [if_neg hs]
  · unfold Main.convert_text_to_speech
    rw [if_neg (by simp [h1, h2])]
    unfold Spec.spec_tts_request at hh
    dsimp only
    rw [hh]
    dsimp only
    rw [if_neg hs]
  · intro llm i hist hglob
    have haud : ∀ t v, (Main.convert_text_to_speech http api_key t v).audio = none := by
      intro t v
      rcases tts_audio_cases http api_key t v with ha | ⟨r2, hok, h200, _⟩
      · exact ha
      · exact absurd h200 (hglob _ _ hok)
    unfold Main.generate_audiobook
    by_cases hc : i.original_text ≠ "" ∧ i.selected_voice_id ≠ ""
    · rw [if_pos hc]
      dsimp only
      cases hrw : (Main.rewrite_text_with_llm llm i.original_text i.selected_tone).text with
      | none => rfl
      | some rt =>
        dsimp only
        by_cases hrt : rt ≠ ""
        · rw [if_pos hrt]
          rw [haud]
        · rw [if_neg hrt]
    · rw [if_neg hc]

/-- Witness for Claim C5 at a concrete input: an oracle answering 404 with
body text "voice not found". -/
theorem claim_C5_witness :
    (Main.convert_text_to_speech Fixtures.http404 "k" "hi" "v").audio = none ∧
    (Main.convert_text_to_speech Fixtures.http404 "k" "hi" "v").msgs
      = [UIMsg.error ("ElevenLabs API Error: " ++ toString (404 : Nat) ++ " - "
          ++ "voice not found")] ∧
    (Main.generate_audiobook Fixtures.llmOk Fixtures.http404 "k"
      ⟨"hello", "Neutral", "Rachel", "v"⟩ []).history = [] :=
  ⟨(claim_C5 Fixtures.http404 "k" "hi" "v" ⟨404, [], "voice not found"⟩ (by decide) (by decide)
      rfl (by decide)).1,
   (claim_C5 Fixtures.http404 "k" "hi" "v" ⟨404, [], "voice not found"⟩ (by decide) (by decide)
      rfl (by decide)).2.1,
   (claim_C5 Fixtures.http404 "k" "hi" "v" ⟨404, [], "voice not found"⟩ (by decide) (by decide)
      rfl (by decide)).2.2 Fixtures.llmOk ⟨"hello", "Neutral", "Rachel", "v"⟩ []
      (by intro req r2 hx; cases hx; decide)⟩

/-- Counterexample to Claim C2 as stated: in the story generator (the
second rewrite/generation component the claim covers), a raised model call
does not leave the text output empty — the failure message is returned as
the component's generated-text output itself, indistinguishable from a
story. Concrete input: a configured key, a model that raises "boom". -/
theorem claim_C2_counterexample :
    Title.generate_fictional_story "configured-key" Fixtures.storyBoom "a dragon"
      = "An unexpected error occurred with the Google AI API: boom" ∧
    Title.generate_fictional_story "configured-key" Fixtures.storyBoom "a dragon" ≠ "" :=
  ⟨rfl, by decide⟩

/-- Claim C2, amended: in the audiobook flow's rewrite component
(`rewrite_text_with_llm`), when the underlying model call raises, the
component reports the error as a UI diagnostic and produces no text
(returns `None`, never a failure message as text). The story generator
(`generate_fictional_story`) instead returns its failure messages through
its generated-text output. -/
theorem claim_C2 (llm : String → Except String String) (text tone e2 : String)
    (h : text ≠ "") (hf : ∀ p, llm p = Except.error e2) :
    (Main.rewrite_text_with_llm llm text tone).text = none ∧
    (Main.rewrite_text_with_llm llm text tone).msgs
      = [UIMsg.error ("Error rewriting text with Gemini: " ++ e2)] ∧
    ∀ (llm2 : String → Except String (Option String)) (key p e3 : String),
      (∀ q, llm2 q = Except.error e3) → key ≠ "" →
      Title.generate_fictional_story key llm2 p
        = "An unexpected error occurred with the Google AI API: " ++ e3 := by
  refine ⟨?_, ?_, ?_⟩
  · unfold Main.rewrite_text_with_llm
    rw [if_neg h]
    dsimp only
    rw [hf]
  · unfold Main.rewrite_text_with_llm
    rw [if_neg h]
    dsimp only
    rw [hf]
  · intro llm2 key p e3 hf2 hkey
    unfold Title.generate_fictional_story
    rw [if_neg hkey]
    dsimp only
    rw [hf2]

/-- Witness for the amended Claim C2 at a concrete input: a model that
raises "boom" on a non-empty text. -/
theorem claim_C2_witness :
    (Main.rewrite_text_with_llm Fixtures.llmBoom "hello" "Neutral").text = none ∧
    (Main.rewrite_text_with_llm Fixtures.llmBoom "hello" "Neutral").msgs
      = [UIMsg.error ("Error rewriting text with Gemini: " ++ "boom")] ∧
    Title.generate_fictional_story "configured-key" Fixtures.storyBoom "a dragon"
      = "An unexpected error occurred with the Google AI API: " ++ "boom" :=
  ⟨(claim_C2 Fixtures.llmBoom "hello" "Neutral" "boom" (by decide) (fun _ => rfl)).1,
   (claim_C2 Fixtures.llmBoom "hello" "Neutral" "boom" (by decide) (fun _ => rfl)).2.1,
   (claim_C2 Fixtures.llmBoom "hello" "Neutral" "boom" (by decide) (fun _ => rfl)).2.2
     Fixtures.storyBoom "configured-key" "a dragon" "boom" (fun _ => rfl) (by decide)⟩

/-- Counterexample to Claim C3 as stated: the story application, with the
key committed in its source (the empty string), does not halt at startup —
module startup proceeds to `app.launch()` — and the missing-credential
failure is reported only at request time, as the return value of the
request handler. -/
theorem claim_C3_counterexample :
    (Title.title_startup Title.GOOGLE_API_KEY Fixtures.cfgOk).launched = true ∧
    Title.generate_fictional_story Title.GOOGLE_API_KEY Fixtures.storyOk "a dragon"
      = Title.missingKeyMessage :=
  ⟨rfl, rfl⟩

/-- Claim C3, amended: in the audiobook application, a missing generative-AI
key or a missing speech-synthesis key halts startup with the corresponding
visible diagnostic; the story application instead always proceeds to launch
regardless of its key, and with an empty key every request returns the
missing-key diagnostic at request time. -/
theorem claim_C3 (g e : String) (cfg : String → Except String Unit) :
    (g = "" → Main.configure_apis g e cfg
      = Main.ConfigResult.halted "Google AI API Key is missing. Please check your .env file.") ∧
    (g ≠ "" → e = "" → Main.configure_apis g e cfg
      = Main.ConfigResult.halted "ElevenLabs API Key is missing. Please check your .env file.") ∧
    (∀ tcfg : String → Except String Unit, ∀ tkey : String,
      (Title.title_startup tkey tcfg).launched = true) ∧
    (∀ (llm2 : String → Except String (Option String)) (p : String),
      Title.generate_fictional_story "" llm2 p = Title.missingKeyMessage) := by
  refine ⟨?_, ?_, ?_, ?_⟩
  · intro hg
    unfold Main.configure_apis
    rw [if_pos hg]
  · intro hg he
    unfold Main.configure_apis
    rw [if_neg hg, if_pos he]
  · intro tcfg tkey
    unfold Title.title_startup
    cases tcfg tkey <;> rfl
  · intro llm2 p
    unfold Title.generate_fictional_story
    rw [if_pos rfl]

/-- Witness for the amended Claim C3 at concrete inputs: each missing key
halts the audiobook startup; the story app launches with an empty key and
answers requests with the missing-key diagnostic. -/
theorem claim_C3_witness :
    Main.configure_apis "" "sk" Fixtures.cfgOk
      = Main.ConfigResult.halted "Google AI API Key is missing. Please check your .env file." ∧
    Main.configure_apis "gk" "" Fixtures.cfgOk
      = Main.ConfigResult.halted "ElevenLabs API Key is missing. Please check your .env file." ∧
    (Title.title_startup "" Fixtures.cfgOk).launched = true ∧
    Title.generate_fictional_story "" Fixtures.storyOk "a dragon" = Title.missingKeyMessage :=
  ⟨(claim_C3 "" "sk" Fixtures.cfgOk).1 rfl,
   (claim_C3 "gk" "" Fixtures.cfgOk).2.1 (by decide) rfl,
   (claim_C3 "gk" "" Fixtures.cfgOk).2.2.1 Fixtures.cfgOk "",
   (claim_C3 "gk" "" Fixtures.cfgOk).2.2.2 Fixtures.storyOk "a dragon"⟩

/-- One press of the generate button never mutates or removes existing
history records: the resulting history is whatever the press freshly
produced, appended in front of the previous records. Shared helper. -/
theorem generate_history_shift (llm : String → Except String String)
    (http : HttpRequest → Except String HttpResponse)
    (api_key : String) (i : Main.GenInput) (hist : List Main.Entry) :
    (Main.generate_audiobook llm http api_key i hist).history
      = (Main.generate_audiobook llm http api_key i []).history ++ hist := by
  unfold Main.generate_audiobook
  by_cases hc : i.original_text ≠ "" ∧ i.selected_voice_id ≠ ""
  · simp only [if_pos hc]
    cases hrw : (Main.rewrite_text_with_llm llm i.original_text i.selected_tone).text with
    | none => rfl
    | some rt =>
      dsimp only
      by_cases hrt : rt ≠ ""
      · simp only [if_pos hrt]
        cases hau : (Main.convert_text_to_speech http api_key rt i.selected_voice_id).audio with
        | none => rfl
        | some a =>
          dsimp only
          by_cases ha : a ≠ []
          · simp only [if_pos ha]
            rfl
          · simp only [if_neg ha]
            rfl
      · simp only [if_neg hrt]
        rfl
  · simp only [if_neg hc]
    rfl

/-- A press of the generate button starting from an empty history produces
either no record or exactly one record. Shared helper. -/
theorem generate_fresh_cases (llm : String → Except String String)
    (http : HttpRequest → Except String HttpResponse)
    (api_key : String) (i : Main.GenInput) :
    (Main.generate_audiobook llm http api_key i []).history = []
    ∨ ∃ e, (Main.generate_audiobook llm http api_key i []).history = [e] := by
  unfold Main.generate_audiobook
  by_cases hc : i.original_text ≠ "" ∧ i.selected_voice_id ≠ ""
  · simp only [if_pos hc]
    cases hrw : (Main.rewrite_text_with_llm llm i.original_text i.selected_tone).text with
    | none => exact Or.inl rfl
    | some rt =>
      dsimp only
      by_cases hrt : rt ≠ ""
      · simp only [if_pos hrt]
        cases hau : (Main.convert_text_to_speech http api_key rt i.selected_voice_id).audio with
        | none => exact Or.inl rfl
        | some a =>
          dsimp only
          by_cases ha : a ≠ []
          · simp only [if_pos ha]
            exact Or.inr ⟨_, rfl⟩
          · simp only [if_neg ha]
            exact Or.inl trivial
      · simp only [if_neg hrt]
        exact Or.inl trivial
  · simp only [if_neg hc]
    exact Or.inl trivial

/-- Claim C6: the history list is always ordered most-recent-first — a
session of N presses yields the per-press fresh records concatenated in
reverse press order in front of the initial records; each press contributes
at most one record (exactly one when successful, inserted at position 0);
and no press ever mutates or removes the records already present. So after
N successful generations record 0 corresponds to the N-th generation. -/
theorem claim_C6 (llm : String → Except String String)
    (http : HttpRequest → Except String HttpResponse)
    (api_key : String) (inputs : List Main.GenInput) (hist : List Main.Entry) :
    Main.run_generations llm http api_key inputs hist
      = ((inputs.map fun i =>
          (Main.generate_audiobook llm http api_key i []).history).reverse).flatten ++ hist ∧
    (∀ i : Main.GenInput, (Main.generate_audiobook llm http api_key i []).history = []
      ∨ ∃ e, (Main.generate_audiobook llm http api_key i []).history = [e]) ∧
    (∀ (i : Main.GenInput) (h2 : List Main.Entry),
      (Main.generate_audiobook llm http api_key i h2).history
        = (Main.generate_audiobook llm http api_key i []).history ++ h2) := by
  refine ⟨?_, fun i => generate_fresh_cases llm http api_key i,
    fun i h2 => generate_history_shift llm http api_key i h2⟩
  induction inputs generalizing hist with
  | nil => simp [Main.run_generations]
  | cons i rest ih =>
    have h1 : Main.run_generations llm http api_key (i :: rest) hist
        = Main.run_generations llm http api_key rest
            ((Main.generate_audiobook llm http api_key i hist).history) := rfl
    rw [h1, ih, generate_history_shift]
    simp [List.flatten_append, List.append_assoc]
